import Mathlib

/-!
Verification development for the Pruvious Nuxt module.

The module source consists of the module definition (defaults and the
`setup` registration function) and the `ModuleOptions` declaration file.
The data model below embeds the module options that `setup` reads, the
default option values, and the registration logic of `setup` as a pure
function from resolved module options to the set of registrations it
performs (route middleware, server handlers, pages) together with the
option values it copies into the runtime configuration.

Routes built by the source through `joinRouteParts(a, b, ...)` are
represented structurally as `HRoute.joined [a, b, ...]`, keeping the list
of parts that the source passes to `joinRouteParts`; literal route
strings are represented as `HRoute.raw`. Filesystem side effects, Nuxt
hook wiring, and path resolution performed by `setup` are outside the
model. JavaScript truthiness of `string | false` route options is
modelled by `truthy`: both `false` and the empty string are falsy.

The job dispatcher, cache invalidator, and token lifecycle manager are
runtime code of this repository that is not present in the provided
sources; their definitions below are modelled from the specification and
are marked as such in their doc comments.
-/

namespace Pruvious

/-- Routes registered by `setup`: either the arguments the source passes
to `joinRouteParts`, or a literal route string. -/
inductive HRoute where
  | joined : List String → HRoute
  | raw : String → HRoute
deriving DecidableEq

/-- One `addServerHandler` call performed by `setup`. -/
structure ServerHandler where
  route : HRoute
  middleware : Bool := false
  handler : String
deriving DecidableEq

/-- One page pushed by the `extendPages` callback of `setup`. -/
structure PageDef where
  name : String
  route : HRoute
  file : String
deriving DecidableEq

/-- The `api.routes` option object: each `string | false` entry is
`Option String` (`none` is `false`); the catch-all entry is a boolean. -/
structure ApiRoutes where
  clearCachePost : Option String
  collections : Option String
  dashboardGet : Option String
  installPost : Option String
  installedGet : Option String
  loginPost : Option String
  logoutPost : Option String
  logoutAllPost : Option String
  logoutOthersPost : Option String
  pagesGet : Option String
  previewsGet : Option String
  processJobPost : Option String
  profileGet : Option String
  profilePatch : Option String
  renewTokenPost : Option String
  robotsTxtGet : Option String
  sitemapXmlGet : Option String
  translatableStringsGet : Option String
  star : Bool
deriving DecidableEq

/-- The `api` option object. The source field named after a route
prepend string is called `prefixStr` here. -/
structure ApiOptions where
  prefixStr : String
  routes : ApiRoutes
deriving DecidableEq

/-- The `dashboard` options that `setup` reads. -/
structure DashboardOptions where
  enabled : Bool
  prefixStr : String
deriving DecidableEq

/-- The `jobs` option object (`jobs: { searchInterval }`). -/
structure JobsOptions where
  searchInterval : Nat
deriving DecidableEq

/-- The `jwt` option object. -/
structure JwtOptions where
  expiration : String
  expirationLong : String
  renewInterval : Nat
  secretKey : String
  localStorageKey : String
deriving DecidableEq

/-- The `standardJobs` option object: exactly the three per-job flags
declared by `ModuleOptions.standardJobs`. -/
structure StandardJobs where
  cleanExpiredPreviews : Bool
  cleanExpiredTokens : Bool
  publishPages : Bool
deriving DecidableEq

/-- The `standardMiddleware.client` flags. -/
structure ClientMiddlewareFlags where
  auth : Bool
deriving DecidableEq

/-- The `standardMiddleware.server` flags. The `uploads` entry appears in
the module defaults although the `ModuleOptions` type declares only
`auth`, `config`, and `language`. -/
structure ServerMiddlewareFlags where
  auth : Bool
  config : Bool
  language : Bool
  uploads : Bool
deriving DecidableEq

/-- The `standardMiddleware` option object. -/
structure StandardMiddleware where
  client : ClientMiddlewareFlags
  server : ServerMiddlewareFlags
deriving DecidableEq

/-- The `pageCache` option: absent from the module defaults (`unset`),
`false` (`disabled`), a local directory backend, or the Redis backend. -/
inductive PageCacheOpt where
  | unset
  | disabled
  | localCache (path : String)
  | redisCache
deriving DecidableEq

/-- The resolved module options that the embedded `setup` logic reads. -/
structure ModuleOptions where
  api : ApiOptions
  catchAllPages : Bool
  dashboard : DashboardOptions
  jobs : Option JobsOptions
  jwt : JwtOptions
  standardJobs : StandardJobs
  standardMiddleware : StandardMiddleware
  pageCache : PageCacheOpt
deriving DecidableEq

/-- Modelled from the spec: the external nanoid library used for the
default `jwt.secretKey` (the call `nanoid(64)` in the module defaults).
It draws one step from a random source per output symbol, over a
64-symbol URL-safe alphabet; the `ModuleOptions` documentation states
that a randomly generated secret key is used when none is set. -/
def nanoidAlphabet : String :=
  "ABCDEFGHIJKLMNOPQRSTUVWXYZabcdefghijklmnopqrstuvwxyz0123456789_-"

/-- Modelled from the spec: the nanoid generator as a function of the
process random source. -/
def nanoid (randomStep : Nat → Fin 64) (size : Nat) : String :=
  String.mk ((List.range size).map (fun i => nanoidAlphabet.toList.getD (randomStep i).val 'A'))

/-- The module defaults from the module definition, parameterized by the
process random source consumed by the `nanoid(64)` call evaluated once
at module-definition time. Keys absent from the defaults object
(`pageCache`) are `unset`. -/
def defaults (rng : Nat → Fin 64) : ModuleOptions :=
  { api :=
      { prefixStr := "api"
        routes :=
          { clearCachePost := some "clear-cache"
            collections := some "collections"
            dashboardGet := some "dashboard"
            installPost := some "install"
            installedGet := some "installed"
            loginPost := some "login"
            logoutPost := some "logout"
            logoutAllPost := some "logout-all"
            logoutOthersPost := some "logout-others"
            pagesGet := some "pages"
            previewsGet := some "previews"
            processJobPost := some "process-job"
            profileGet := some "profile"
            profilePatch := some "profile"
            renewTokenPost := some "renew-token"
            robotsTxtGet := some "robots.txt"
            sitemapXmlGet := some "sitemap.xml"
            translatableStringsGet := some "translatable-strings"
            star := true } }
    catchAllPages := true
    dashboard := { enabled := true, prefixStr := "dashboard" }
    jobs := some { searchInterval := 60 }
    jwt :=
      { expiration := "4 hours"
        expirationLong := "7 days"
        renewInterval := 30
        secretKey := nanoid rng 64
        localStorageKey := "token" }
    standardJobs :=
      { cleanExpiredPreviews := true
        cleanExpiredTokens := true
        publishPages := true }
    standardMiddleware :=
      { client := { auth := true }
        server := { auth := true, config := true, language := true, uploads := true } }
    pageCache := PageCacheOpt.unset }

/-- JavaScript truthiness of a `string | false` option: `false` and the
empty string are falsy; a nonempty string is kept. -/
def truthy : Option String → Option String
  | some v => if v = "" then none else some v
  | none => none

/-- The dynamic read `standardMiddleware.server[middleware]` in the
server middleware loop of `setup`. -/
def serverMwFlag (s : ServerMiddlewareFlags) : String → Bool
  | "config" => s.config
  | "language" => s.language
  | "auth" => s.auth
  | "uploads" => s.uploads
  | _ => false

/-- The server middleware loop of `setup`: it iterates over the names
`config`, `language`, `auth` and registers a middleware handler for each
enabled flag. -/
def serverMwHandlers (s : ServerMiddlewareFlags) : List ServerHandler :=
  (["config", "language", "auth"].filter (serverMwFlag s)).map
    (fun m => { route := HRoute.raw "", middleware := true, handler := "./runtime/middleware/server/" ++ m })

/-- The collections route registration of `setup`. -/
def collectionsHandlers (api : ApiOptions) : List ServerHandler :=
  match truthy api.routes.collections with
  | some v => [{ route := HRoute.joined [api.prefixStr, v, "**"], handler := "./runtime/api/collections" }]
  | none => []

/-- One iteration of the twelve-route loop of `setup`: a truthy route
value registers a handler under the api route prepend string. -/
def routeHandlerFor (api : ApiOptions) (name : String) (v : Option String) : List ServerHandler :=
  match truthy v with
  | some s => [{ route := HRoute.joined [api.prefixStr, s], handler := "./runtime/api/" ++ name }]
  | none => []

/-- The twelve-route loop of `setup`, unrolled in source order. -/
def routeLoopHandlers (api : ApiOptions) : List ServerHandler :=
  routeHandlerFor api "clear-cache.post" api.routes.clearCachePost
    ++ routeHandlerFor api "dashboard.get" api.routes.dashboardGet
    ++ routeHandlerFor api "install.post" api.routes.installPost
    ++ routeHandlerFor api "installed.get" api.routes.installedGet
    ++ routeHandlerFor api "login.post" api.routes.loginPost
    ++ routeHandlerFor api "logout.post" api.routes.logoutPost
    ++ routeHandlerFor api "logout-all.post" api.routes.logoutAllPost
    ++ routeHandlerFor api "logout-others.post" api.routes.logoutOthersPost
    ++ routeHandlerFor api "process-job.post" api.routes.processJobPost
    ++ routeHandlerFor api "profile.get" api.routes.profileGet
    ++ routeHandlerFor api "profile.patch" api.routes.profilePatch
    ++ routeHandlerFor api "renew-token.post" api.routes.renewTokenPost

/-- The pages.get registrations of `setup`: gated on a truthy route value
and on a truthy (nonempty) api route prepend string. -/
def pagesGetHandlers (api : ApiOptions) : List ServerHandler :=
  match truthy api.routes.pagesGet with
  | some v =>
    if api.prefixStr ≠ "" then
      [{ route := HRoute.joined [api.prefixStr, v], handler := "./runtime/api/pages.get" },
       { route := HRoute.joined [api.prefixStr, v, "**"], handler := "./runtime/api/pages.get" }]
    else []
  | none => []

/-- The previews.get registrations of `setup`, gated like pages.get. -/
def previewsGetHandlers (api : ApiOptions) : List ServerHandler :=
  match truthy api.routes.previewsGet with
  | some v =>
    if api.prefixStr ≠ "" then
      [{ route := HRoute.joined [api.prefixStr, v], handler := "./runtime/api/previews.get" },
       { route := HRoute.joined [api.prefixStr, v, "**"], handler := "./runtime/api/previews.get" }]
    else []
  | none => []

/-- The translatable-strings.get registrations of `setup`, gated like
pages.get; the second handler uses the `:domain` parameter segment. -/
def translatableStringsHandlers (api : ApiOptions) : List ServerHandler :=
  match truthy api.routes.translatableStringsGet with
  | some v =>
    if api.prefixStr ≠ "" then
      [{ route := HRoute.joined [api.prefixStr, v], handler := "./runtime/api/translatable-strings.get" },
       { route := HRoute.joined [api.prefixStr, v, ":domain"], handler := "./runtime/api/translatable-strings.get" }]
    else []
  | none => []

/-- The catch-all registrations of `setup`: the root handler only when
the api route prepend string is truthy, the wildcard handler always. -/
def starHandlers (api : ApiOptions) : List ServerHandler :=
  if api.routes.star then
    (if api.prefixStr ≠ "" then
      [{ route := HRoute.joined [api.prefixStr], handler := "./runtime/api/catch-all" }]
    else [])
      ++ [{ route := HRoute.joined [api.prefixStr, "**"], handler := "./runtime/api/catch-all" }]
  else []

/-- The SEO registrations of `setup` (robots.txt and sitemap routes,
registered without the api route prepend string). -/
def seoHandlers (api : ApiOptions) : List ServerHandler :=
  (match truthy api.routes.robotsTxtGet with
    | some v => [{ route := HRoute.joined [v], handler := "./runtime/api/robots.get" }]
    | none => [])
    ++ (match truthy api.routes.sitemapXmlGet with
      | some v =>
        [{ route := HRoute.joined [v], handler := "./runtime/api/sitemap.get" },
         { route := HRoute.joined [v, ":index"], handler := "./runtime/api/sitemap.get" }]
      | none => [])

/-- All `addServerHandler` calls of `setup`, in source order. -/
def allServerHandlers (o : ModuleOptions) : List ServerHandler :=
  serverMwHandlers o.standardMiddleware.server ++ collectionsHandlers o.api ++ routeLoopHandlers o.api
    ++ pagesGetHandlers o.api ++ previewsGetHandlers o.api ++ translatableStringsHandlers o.api
    ++ starHandlers o.api ++ seoHandlers o.api

/-- The client route middleware registration of `setup`. -/
def routeMiddlewareList (o : ModuleOptions) : List String :=
  if o.standardMiddleware.client.auth then ["pruvious-auth"] else []

/-- The `extendPages` callback of `setup`. -/
def pagesList (o : ModuleOptions) : List PageDef :=
  (if o.dashboard.enabled then
    [{ name := "pruvious-dashboard"
       route := HRoute.joined [o.dashboard.prefixStr, ":catchAll(.*)?"]
       file := "./runtime/pages/dashboard/index" }]
  else [])
    ++ (if (truthy o.api.routes.pagesGet).isSome && o.catchAllPages then
      [{ name := "pruvious-page", route := HRoute.raw "/:catchAll(.*)", file := "./runtime/pages/[...slug]" }]
    else [])

/-- The observable output of `setup`: the registrations it performs and
the option values it copies into the runtime configuration. -/
structure SetupOutput where
  routeMiddleware : List String
  serverHandlers : List ServerHandler
  pages : List PageDef
  runtimeJobs : Option JobsOptions
  runtimeJwt : JwtOptions
  runtimeStandardJobs : StandardJobs
  runtimeStandardMiddleware : StandardMiddleware
deriving DecidableEq

/-- The `setup` function of the module definition, as a pure function
from resolved module options to its observable output. -/
def setup (o : ModuleOptions) : SetupOutput :=
  { routeMiddleware := routeMiddlewareList o
    serverHandlers := allServerHandlers o
    pages := pagesList o
    runtimeJobs := o.jobs
    runtimeJwt := o.jwt
    runtimeStandardJobs := o.standardJobs
    runtimeStandardMiddleware := o.standardMiddleware }

/-- The server handlers of `setup` whose handler module is `p`. -/
def handlersFor (o : ModuleOptions) (p : String) : List ServerHandler :=
  (setup o).serverHandlers.filter (fun h => h.handler == p)

/-- A fixed random source used to instantiate concrete configurations. -/
def rng0 : Nat → Fin 64 := fun _ => 0

/-- Modelled from the spec: the status of a Job Run Record. The
dispatcher and job store are runtime code not present in the provided
sources. -/
inductive JobStatus where
  | pending
  | claimed
  | running
  | succeeded
  | failed
deriving DecidableEq

/-- Modelled from the spec: a Job Run Record for one job name (the claim
is a conditional write keyed on the job name, so the store slot for one
job name suffices for the claiming protocol). -/
structure JobRunRecord where
  status : JobStatus
  claimedBy : Option String
  claimedAt : Option Nat
  nextDueAt : Nat
deriving DecidableEq

/-- Modelled from the spec: the outcome of an atomic claim attempt. A
conflict is a normal race outcome, not an error. -/
inductive ClaimOutcome where
  | claimSuccess
  | claimConflict
deriving DecidableEq

/-- Modelled from the spec: the atomic claim, a single conditional
update that transitions a record from pending or absent to claimed with
the claiming instance and time, succeeding only if no other instance
claimed it first. -/
def tryClaim (slot : Option JobRunRecord) (inst : String) (now : Nat) :
    ClaimOutcome × Option JobRunRecord :=
  match slot with
  | none =>
    (ClaimOutcome.claimSuccess,
      some { status := JobStatus.claimed, claimedBy := some inst, claimedAt := some now, nextDueAt := now })
  | some r =>
    if r.status = JobStatus.pending then
      (ClaimOutcome.claimSuccess,
        some { r with status := JobStatus.claimed, claimedBy := some inst, claimedAt := some now })
    else (ClaimOutcome.claimConflict, some r)

/-- Modelled from the spec: one dispatcher attempt on a due record. The
registered handler runs exactly when the claim succeeds; an instance
that observes a conflict silently skips the job. -/
structure DispatchResult where
  outcome : ClaimOutcome
  handlerRuns : Nat
deriving DecidableEq

/-- Modelled from the spec: a single dispatcher claim-and-execute
attempt against the store slot of one job. -/
def dispatchOnce (slot : Option JobRunRecord) (inst : String) (now : Nat) :
    DispatchResult × Option JobRunRecord :=
  match tryClaim slot inst now with
  | (ClaimOutcome.claimSuccess, slot2) => ({ outcome := ClaimOutcome.claimSuccess, handlerRuns := 1 }, slot2)
  | (ClaimOutcome.claimConflict, slot2) => ({ outcome := ClaimOutcome.claimConflict, handlerRuns := 0 }, slot2)

/-- Modelled from the spec: two dispatcher instances racing for the same
record. The claim is a single indivisible conditional write against the
durable store, so a concurrent race serializes into one of the two
attempt orders; this function performs one order, and both orders are
obtained by swapping the instance arguments. -/
def raceTwo (slot : Option JobRunRecord) (i1 i2 : String) (now : Nat) :
    DispatchResult × DispatchResult × Option JobRunRecord :=
  let p1 := dispatchOnce slot i1 now
  let p2 := dispatchOnce p1.2 i2 now
  (p1.1, p2.1, p2.2)

/-- Modelled from the spec: a per-instance clock, owning only its own
start time and interval; ticks use the absolute next-fire time. There is
no shared state between the clocks of different instances: a tick time
is a function of the owning instance alone. -/
structure ClockInstance where
  startAt : Nat
  intervalSeconds : Nat
deriving DecidableEq

/-- Modelled from the spec: the absolute time of tick `n` of one clock
instance (the first tick fires one interval after the start). -/
def tickTime (c : ClockInstance) (n : Nat) : Nat :=
  c.startAt + (n + 1) * c.intervalSeconds

/-- Modelled from the spec: invalidation scopes of the cache
invalidator; the administrative clear-cache endpoint uses the scope that
covers everything. -/
inductive CacheScope where
  | all
  | scoped (s : String)
deriving DecidableEq

/-- Modelled from the spec: the cache as a list of key-value entries. -/
def CacheState : Type := List (String × String)

/-- Modelled from the spec: synchronous invalidation. The whole-cache
scope removes every entry; a scoped invalidation removes the entries
whose key lies under the scope. -/
def invalidate : CacheScope → CacheState → CacheState
  | CacheScope.all, _ => []
  | CacheScope.scoped s, c => c.filter (fun kv => !(s.isPrefixOf kv.1))

/-- Modelled from the spec: the clear-cache endpoint handler invokes the
cache invalidator with the whole-cache scope, and the invalidation
completes before the call returns: the state handed back is already
invalidated. -/
def clearCacheEndpoint (c : CacheState) : Bool × CacheState :=
  (true, invalidate CacheScope.all c)

/-- Modelled from the spec: a session token record. The token lifecycle
manager is runtime code not present in the provided sources. -/
structure IssuedToken where
  userId : Nat
  issuedAt : Nat
  expiresAt : Nat
  renewableUntil : Nat
deriving DecidableEq

/-- Modelled from the spec: seconds denoted by a time unit word of a
time span string such as "4 hours" or "7 days". -/
def timeUnitSeconds (u : String) : Option Nat :=
  if u == "second" || u == "seconds" || u == "s" then some 1
  else if u == "minute" || u == "minutes" || u == "m" then some 60
  else if u == "hour" || u == "hours" || u == "h" then some 3600
  else if u == "day" || u == "days" || u == "d" then some 86400
  else none

/-- Modelled from the spec: splitting a character list at spaces. -/
def splitOnSpace : List Char → List (List Char)
  | [] => [[]]
  | c :: rest =>
    let r := splitOnSpace rest
    if c = ' ' then [] :: r
    else
      match r with
      | [] => [[c]]
      | w :: ws => (c :: w) :: ws

/-- Modelled from the spec: parsing a decimal number from characters. -/
def parseNatChars (l : List Char) : Option Nat :=
  if !l.isEmpty && l.all (fun c => c.isDigit) then
    some (l.foldl (fun n c => n * 10 + (c.toNat - 48)) 0)
  else none

/-- Modelled from the spec: expiration values are seconds or a time span
string; modelled for plain numbers and the "number unit" form used by
the defaults. -/
def parseTimeSpan (s : String) : Option Nat :=
  match splitOnSpace s.data with
  | [a] => parseNatChars a
  | [a, u] =>
    match parseNatChars a, timeUnitSeconds (String.mk u) with
    | some n, some m => some (n * m)
    | _, _ => none
  | _ => none

/-- Modelled from the spec: token issuance sets the expiry from the
short or long configured duration according to the remember flag, and
the renewal window (configured in minutes) follows the expiry. -/
def issue (cfg : JwtOptions) (userId : Nat) (remember : Bool) (now : Nat) : Option IssuedToken :=
  (parseTimeSpan (if remember then cfg.expirationLong else cfg.expiration)).map
    (fun d =>
      { userId := userId
        issuedAt := now
        expiresAt := now + d
        renewableUntil := now + d + cfg.renewInterval * 60 })

/-- Modelled from the spec: the typed outcome of a renewal attempt. -/
inductive RenewOutcome where
  | renewed (t : IssuedToken)
  | expired
deriving DecidableEq

/-- Modelled from the spec: renewal succeeds only while the current time
is before the renewal deadline, extending the expiry from the configured
duration; outside that window it fails with the expired outcome and the
stored record is not mutated. -/
def renew (cfg : JwtOptions) (t : IssuedToken) (now : Nat) : RenewOutcome :=
  if now < t.renewableUntil then
    match parseTimeSpan cfg.expiration with
    | some d =>
      RenewOutcome.renewed
        { t with expiresAt := now + d, renewableUntil := now + d + cfg.renewInterval * 60 }
    | none => RenewOutcome.expired
  else RenewOutcome.expired

/-! Helper lemmas about the handler lists registered by `setup`. -/

theorem filter_handler_nil {l : List ServerHandler} {L : List String}
    (hmem : ∀ x ∈ l, x.handler ∈ L) {p : String} (hp : p ∉ L) :
    l.filter (fun h => h.handler == p) = [] := by
  refine List.filter_eq_nil_iff.mpr ?_
  intro a ha
  simp only [beq_iff_eq]
  intro hq
  exact hp (hq ▸ hmem a ha)

theorem filter_handler_nil_single {l : List ServerHandler} {q : String}
    (hmem : ∀ x ∈ l, x.handler = q) {p : String} (hp : p ≠ q) :
    l.filter (fun h => h.handler == p) = [] := by
  refine List.filter_eq_nil_iff.mpr ?_
  intro a ha
  simp only [beq_iff_eq]
  intro hq
  exact hp (hq ▸ hmem a ha)

theorem filter_handler_self {l : List ServerHandler} {p : String}
    (h : ∀ x ∈ l, x.handler = p) :
    l.filter (fun h => h.handler == p) = l := by
  refine List.filter_eq_self.mpr ?_
  intro a ha
  simp [beq_iff_eq, h a ha]

theorem filter_mw_nil {l : List ServerHandler}
    (h : ∀ x ∈ l, x.middleware = false) :
    l.filter (fun x => x.middleware) = [] := by
  refine List.filter_eq_nil_iff.mpr ?_
  intro a ha
  simp [h a ha]

theorem serverMw_shape (s : ServerMiddlewareFlags) :
    ∀ x ∈ serverMwHandlers s, x.middleware = true ∧ x.handler ∈
      (["./runtime/middleware/server/config", "./runtime/middleware/server/language",
        "./runtime/middleware/server/auth"] : List String) := by
  intro x hx
  simp only [serverMwHandlers, List.mem_map, List.mem_filter] at hx
  obtain ⟨m, ⟨hm, -⟩, rfl⟩ := hx
  simp only [List.mem_cons, List.not_mem_nil, or_false] at hm
  rcases hm with rfl | rfl | rfl <;> exact ⟨rfl, by decide⟩

theorem collections_shape (api : ApiOptions) :
    ∀ x ∈ collectionsHandlers api,
      x.middleware = false ∧ x.handler = "./runtime/api/collections" := by
  intro x
  unfold collectionsHandlers
  cases truthy api.routes.collections <;> intro hx <;> simp_all

theorem routeHandlerFor_shape (api : ApiOptions) (name : String) (v : Option String) :
    ∀ x ∈ routeHandlerFor api name v,
      x.middleware = false ∧ x.handler = "./runtime/api/" ++ name := by
  intro x
  unfold routeHandlerFor
  cases truthy v <;> intro hx <;> simp_all

theorem routeLoop_shape (api : ApiOptions) :
    ∀ x ∈ routeLoopHandlers api, x.middleware = false ∧ x.handler ∈
      (["./runtime/api/clear-cache.post", "./runtime/api/dashboard.get",
        "./runtime/api/install.post", "./runtime/api/installed.get",
        "./runtime/api/login.post", "./runtime/api/logout.post",
        "./runtime/api/logout-all.post", "./runtime/api/logout-others.post",
        "./runtime/api/process-job.post", "./runtime/api/profile.get",
        "./runtime/api/profile.patch", "./runtime/api/renew-token.post"] : List String) := by
  intro x hx
  unfold routeLoopHandlers at hx
  simp only [List.mem_append] at hx
  rcases hx with ((((((((((h | h) | h) | h) | h) | h) | h) | h) | h) | h) | h) | h <;>
    exact ⟨(routeHandlerFor_shape api _ _ x h).1, by rw [(routeHandlerFor_shape api _ _ x h).2]; decide⟩

theorem pagesGet_shape (api : ApiOptions) :
    ∀ x ∈ pagesGetHandlers api,
      x.middleware = false ∧ x.handler = "./runtime/api/pages.get" := by
  intro x
  unfold pagesGetHandlers
  cases truthy api.routes.pagesGet with
  | none => intro hx; simp at hx
  | some v =>
    intro hx
    split at hx
    · split at hx
      · simp only [List.mem_cons, List.not_mem_nil, or_false] at hx
        rcases hx with rfl | rfl <;> exact ⟨rfl, rfl⟩
      · simp at hx
    · simp at hx

theorem previewsGet_shape (api : ApiOptions) :
    ∀ x ∈ previewsGetHandlers api,
      x.middleware = false ∧ x.handler = "./runtime/api/previews.get" := by
  intro x
  unfold previewsGetHandlers
  cases truthy api.routes.previewsGet with
  | none => intro hx; simp at hx
  | some v =>
    intro hx
    split at hx
    · split at hx
      · simp only [List.mem_cons, List.not_mem_nil, or_false] at hx
        rcases hx with rfl | rfl <;> exact ⟨rfl, rfl⟩
      · simp at hx
    · simp at hx

theorem translatableStrings_shape (api : ApiOptions) :
    ∀ x ∈ translatableStringsHandlers api,
      x.middleware = false ∧ x.handler = "./runtime/api/translatable-strings.get" := by
  intro x
  unfold translatableStringsHandlers
  cases truthy api.routes.translatableStringsGet with
  | none => intro hx; simp at hx
  | some v =>
    intro hx
    split at hx
    · split at hx
      · simp only [List.mem_cons, List.not_mem_nil, or_false] at hx
        rcases hx with rfl | rfl <;> exact ⟨rfl, rfl⟩
      · simp at hx
    · simp at hx

theorem star_shape (api : ApiOptions) :
    ∀ x ∈ starHandlers api,
      x.middleware = false ∧ x.handler = "./runtime/api/catch-all" := by
  intro x hx
  unfold starHandlers at hx
  split at hx
  · simp only [List.mem_append] at hx
    rcases hx with hx | hx
    · split at hx <;> simp_all
    · simp_all
  · simp at hx

theorem seo_shape (api : ApiOptions) :
    ∀ x ∈ seoHandlers api, x.middleware = false ∧ x.handler ∈
      (["./runtime/api/robots.get", "./runtime/api/sitemap.get"] : List String) := by
  intro x hx
  unfold seoHandlers at hx
  simp only [List.mem_append] at hx
  rcases hx with hx | hx
  · revert hx
    cases truthy api.routes.robotsTxtGet <;> intro hx <;> simp_all
  · revert hx
    cases truthy api.routes.sitemapXmlGet with
    | none => intro hx; simp at hx
    | some v =>
      intro hx
      simp only [List.mem_cons, List.not_mem_nil, or_false] at hx
      rcases hx with rfl | rfl <;> exact ⟨rfl, by simp⟩

theorem handlersFor_pages (o : ModuleOptions) :
    handlersFor o "./runtime/api/pages.get" = pagesGetHandlers o.api := by
  unfold handlersFor setup allServerHandlers
  simp only [List.filter_append]
  rw [filter_handler_nil (fun x hx => (serverMw_shape o.standardMiddleware.server x hx).2) (by decide),
    filter_handler_nil_single (fun x hx => (collections_shape o.api x hx).2) (by decide),
    filter_handler_nil (fun x hx => (routeLoop_shape o.api x hx).2) (by decide),
    filter_handler_self (fun x hx => (pagesGet_shape o.api x hx).2),
    filter_handler_nil_single (fun x hx => (previewsGet_shape o.api x hx).2) (by decide),
    filter_handler_nil_single (fun x hx => (translatableStrings_shape o.api x hx).2) (by decide),
    filter_handler_nil_single (fun x hx => (star_shape o.api x hx).2) (by decide),
    filter_handler_nil (fun x hx => (seo_shape o.api x hx).2) (by decide)]
  simp

theorem handlersFor_previews (o : ModuleOptions) :
    handlersFor o "./runtime/api/previews.get" = previewsGetHandlers o.api := by
  unfold handlersFor setup allServerHandlers
  simp only [List.filter_append]
  rw [filter_handler_nil (fun x hx => (serverMw_shape o.standardMiddleware.server x hx).2) (by decide),
    filter_handler_nil_single (fun x hx => (collections_shape o.api x hx).2) (by decide),
    filter_handler_nil (fun x hx => (routeLoop_shape o.api x hx).2) (by decide),
    filter_handler_nil_single (fun x hx => (pagesGet_shape o.api x hx).2) (by decide),
    filter_handler_self (fun x hx => (previewsGet_shape o.api x hx).2),
    filter_handler_nil_single (fun x hx => (translatableStrings_shape o.api x hx).2) (by decide),
    filter_handler_nil_single (fun x hx => (star_shape o.api x hx).2) (by decide),
    filter_handler_nil (fun x hx => (seo_shape o.api x hx).2) (by decide)]
  simp

theorem handlersFor_translatableStrings (o : ModuleOptions) :
    handlersFor o "./runtime/api/translatable-strings.get" = translatableStringsHandlers o.api := by
  unfold handlersFor setup allServerHandlers
  simp only [List.filter_append]
  rw [filter_handler_nil (fun x hx => (serverMw_shape o.standardMiddleware.server x hx).2) (by decide),
    filter_handler_nil_single (fun x hx => (collections_shape o.api x hx).2) (by decide),
    filter_handler_nil (fun x hx => (routeLoop_shape o.api x hx).2) (by decide),
    filter_handler_nil_single (fun x hx => (pagesGet_shape o.api x hx).2) (by decide),
    filter_handler_nil_single (fun x hx => (previewsGet_shape o.api x hx).2) (by decide),
    filter_handler_self (fun x hx => (translatableStrings_shape o.api x hx).2),
    filter_handler_nil_single (fun x hx => (star_shape o.api x hx).2) (by decide),
    filter_handler_nil (fun x hx => (seo_shape o.api x hx).2) (by decide)]
  simp

theorem handlersFor_catchAll (o : ModuleOptions) :
    handlersFor o "./runtime/api/catch-all" = starHandlers o.api := by
  unfold handlersFor setup allServerHandlers
  simp only [List.filter_append]
  rw [filter_handler_nil (fun x hx => (serverMw_shape o.standardMiddleware.server x hx).2) (by decide),
    filter_handler_nil_single (fun x hx => (collections_shape o.api x hx).2) (by decide),
    filter_handler_nil (fun x hx => (routeLoop_shape o.api x hx).2) (by decide),
    filter_handler_nil_single (fun x hx => (pagesGet_shape o.api x hx).2) (by decide),
    filter_handler_nil_single (fun x hx => (previewsGet_shape o.api x hx).2) (by decide),
    filter_handler_nil_single (fun x hx => (translatableStrings_shape o.api x hx).2) (by decide),
    filter_handler_self (fun x hx => (star_shape o.api x hx).2),
    filter_handler_nil (fun x hx => (seo_shape o.api x hx).2) (by decide)]
  simp

/-! Claim theorems. -/

/-- Claim C1: for a job with a fixed interval and a due Job Run Record,
two dispatcher instances racing to claim the record serialize through
the atomic conditional write; the first conditional write wins, the
other attempt observes a claim conflict, and only the winner executes
the handler (one handler run in total). Both serialization orders are
instances of this statement with the instance arguments swapped. -/
theorem claim_c1_theorem : ∀ (slot : Option JobRunRecord) (i1 i2 : String) (now : Nat),
    (slot = none ∨ ∃ r, slot = some r ∧ r.status = JobStatus.pending ∧ r.nextDueAt ≤ now) →
    (raceTwo slot i1 i2 now).1.outcome = ClaimOutcome.claimSuccess ∧
    (raceTwo slot i1 i2 now).2.1.outcome = ClaimOutcome.claimConflict ∧
    (raceTwo slot i1 i2 now).1.handlerRuns = 1 ∧
    (raceTwo slot i1 i2 now).2.1.handlerRuns = 0 := by
  intro slot i1 i2 now h
  rcases h with rfl | ⟨r, rfl, hst, -⟩
  · simp [raceTwo, dispatchOnce, tryClaim]
  · simp [raceTwo, dispatchOnce, tryClaim, hst]

/-- Witness for claim C1 at an absent record and two named instances. -/
theorem claim_c1_witness :
    (raceTwo none "a" "b" 0).1.outcome = ClaimOutcome.claimSuccess ∧
    (raceTwo none "a" "b" 0).2.1.outcome = ClaimOutcome.claimConflict ∧
    (raceTwo none "a" "b" 0).1.handlerRuns = 1 ∧
    (raceTwo none "a" "b" 0).2.1.handlerRuns = 0 :=
  claim_c1_theorem none "a" "b" 0 (Or.inl rfl)

/-- Claim C2 counterexample: a configuration selecting the local page
cache backend is accepted by `setup` exactly like one with the page
cache disabled — `setup` performs no cache-backend validation, registers
handlers normally, and nothing resembling a configuration-conflict
failure exists in its body; the module options carry no multi-instance
deployment claim at all. -/
theorem claim_c2_counterexample :
    setup { defaults rng0 with pageCache := PageCacheOpt.localCache "./.cache/pages" } =
      setup { defaults rng0 with pageCache := PageCacheOpt.disabled } ∧
    (setup { defaults rng0 with pageCache := PageCacheOpt.localCache "./.cache/pages" }).serverHandlers ≠ [] :=
  ⟨rfl, by decide⟩

/-- Claim C2 amended: `setup` does not validate the page cache backend;
its output is independent of the `pageCache` option, so a local cache
backend is silently accepted in every configuration. -/
theorem claim_c2_theorem : ∀ (o : ModuleOptions) (pc : PageCacheOpt),
    setup { o with pageCache := pc } = setup o :=
  fun _ _ => rfl

/-- Claim C3: whenever the clear-cache route option is truthy, `setup`
registers the clear-cache endpoint under the api route prepend string,
and the (spec-modelled) endpoint handler invokes the cache invalidator
with the whole-cache scope, the invalidation completing before the call
returns: the state it hands back contains no entry. -/
theorem claim_c3_theorem : ∀ (o : ModuleOptions) (v : String),
    o.api.routes.clearCachePost = some v → v ≠ "" →
    ({ route := HRoute.joined [o.api.prefixStr, v], middleware := false,
       handler := "./runtime/api/clear-cache.post" } : ServerHandler) ∈ (setup o).serverHandlers ∧
    ∀ c : CacheState,
      (clearCacheEndpoint c).2 = invalidate CacheScope.all c ∧
      ∀ k : String, ((clearCacheEndpoint c).2).lookup k = none := by
  intro o v hv hne
  refine ⟨?_, fun c => ⟨rfl, fun k => rfl⟩⟩
  have hstr : ("./runtime/api/" ++ "clear-cache.post" : String) = "./runtime/api/clear-cache.post" := by
    decide
  have h1 : ({ route := HRoute.joined [o.api.prefixStr, v], middleware := false,
               handler := "./runtime/api/clear-cache.post" } : ServerHandler)
      ∈ routeHandlerFor o.api "clear-cache.post" o.api.routes.clearCachePost := by
    unfold routeHandlerFor
    rw [hv]
    simp [truthy, hne, hstr]
  show _ ∈ allServerHandlers o
  unfold allServerHandlers routeLoopHandlers
  simp only [List.mem_append]
  tauto

/-- Witness for claim C3 at the default options. -/
theorem claim_c3_witness :
    ({ route := HRoute.joined ["api", "clear-cache"], middleware := false,
       handler := "./runtime/api/clear-cache.post" } : ServerHandler)
      ∈ (setup (defaults rng0)).serverHandlers ∧
    (clearCacheEndpoint [("k", "v")]).2 = invalidate CacheScope.all [("k", "v")] :=
  ⟨(claim_c3_theorem (defaults rng0) "clear-cache" rfl (by decide)).1,
   ((claim_c3_theorem (defaults rng0) "clear-cache" rfl (by decide)).2 [("k", "v")]).1⟩

/-- Claim C4: the configuration surface exposes per-job flags for
exactly the three standard jobs — every `StandardJobs` value is
determined by its three fields — and the module defaults enable all
three. -/
theorem claim_c4_theorem :
    (∀ rng : Nat → Fin 64,
      (defaults rng).standardJobs =
        { cleanExpiredPreviews := true, cleanExpiredTokens := true, publishPages := true }) ∧
    ∀ s : StandardJobs,
      s = { cleanExpiredPreviews := s.cleanExpiredPreviews,
            cleanExpiredTokens := s.cleanExpiredTokens,
            publishPages := s.publishPages } :=
  ⟨fun _ => rfl, fun _ => rfl⟩

/-- Claim C5: the job search interval is configured in seconds and
defaults to 60, and a clock instance running at that interval fires
successive ticks 60 seconds apart; a tick time is a function of the
owning instance alone, so the clocks of distinct instances share no
state. -/
theorem claim_c5_theorem : ∀ (rng : Nat → Fin 64) (c : ClockInstance) (n : Nat),
    (defaults rng).jobs = some { searchInterval := 60 } ∧
    (c.intervalSeconds = 60 → tickTime c (n + 1) = tickTime c n + 60) := by
  intro rng c n
  refine ⟨rfl, fun h => ?_⟩
  simp [tickTime, h]
  ring

/-- Witness for claim C5 at a clock started at 0 with the default
interval. -/
theorem claim_c5_witness : tickTime { startAt := 0, intervalSeconds := 60 } 1 =
    tickTime { startAt := 0, intervalSeconds := 60 } 0 + 60 :=
  (claim_c5_theorem rng0 { startAt := 0, intervalSeconds := 60 } 0).2 rfl

/-- Claim C6: with the default configuration, issuing without remember
expires the token the short default duration ("4 hours") after issuance
and issuing with remember expires it the long default duration
("7 days") after issuance. -/
theorem claim_c6_theorem : ∀ (rng : Nat → Fin 64) (u now : Nat),
    (defaults rng).jwt.expiration = "4 hours" ∧
    (defaults rng).jwt.expirationLong = "7 days" ∧
    (issue (defaults rng).jwt u false now).map (fun t => t.expiresAt) = some (now + 4 * 3600) ∧
    (issue (defaults rng).jwt u true now).map (fun t => t.expiresAt) = some (now + 7 * 86400) := by
  intro rng u now
  have h4 : parseTimeSpan "4 hours" = some 14400 := by decide
  have h7 : parseTimeSpan "7 days" = some 604800 := by decide
  refine ⟨rfl, rfl, ?_, ?_⟩ <;> simp [issue, defaults, h4, h7]

/-- Claim C7: renewal succeeds exactly while the current time is before
the renewal deadline, extending the expiry; at any other time it fails
with the expired outcome; the renewal window option is in minutes with
default 30. -/
theorem claim_c7_theorem : ∀ (rng : Nat → Fin 64) (cfg : JwtOptions) (t : IssuedToken) (now d : Nat),
    parseTimeSpan cfg.expiration = some d →
    ((renew cfg t now ≠ RenewOutcome.expired) ↔ now < t.renewableUntil) ∧
    (now < t.renewableUntil →
      renew cfg t now =
        RenewOutcome.renewed
          { t with expiresAt := now + d, renewableUntil := now + d + cfg.renewInterval * 60 }) ∧
    (t.renewableUntil ≤ now → renew cfg t now = RenewOutcome.expired) ∧
    (defaults rng).jwt.renewInterval = 30 := by
  intro rng cfg t now d hd
  refine ⟨?_, ?_, ?_, rfl⟩
  · unfold renew
    rw [hd]
    by_cases h : now < t.renewableUntil
    · simp [h]
    · simp [h]
  · intro h
    unfold renew
    rw [hd]
    simp [h]
  · intro h
    unfold renew
    rw [hd]
    simp [Nat.not_lt.mpr h]

/-- Witness for claim C7: a renewal attempted past the deadline under
the default token configuration is expired. -/
theorem claim_c7_witness :
    renew { expiration := "4 hours", expirationLong := "7 days", renewInterval := 30,
            secretKey := "k", localStorageKey := "token" }
        { userId := 1, issuedAt := 0, expiresAt := 14400, renewableUntil := 16200 } 20000
      = RenewOutcome.expired :=
  (claim_c7_theorem rng0 _ _ 20000 14400 (by decide)).2.2.1 (by decide)

/-- Claim C8 counterexample: flipping the uploads flag of the server
middleware defaults changes the output of `setup` — the flag is copied
unchanged into the runtime configuration — even though the registered
server handlers stay identical. -/
theorem claim_c8_counterexample :
    setup (defaults rng0) ≠
      setup { defaults rng0 with
        standardMiddleware :=
          { client := (defaults rng0).standardMiddleware.client
            server := { (defaults rng0).standardMiddleware.server with uploads := false } } } ∧
    (setup (defaults rng0)).serverHandlers =
      (setup { defaults rng0 with
        standardMiddleware :=
          { client := (defaults rng0).standardMiddleware.client
            server := { (defaults rng0).standardMiddleware.server with uploads := false } } }).serverHandlers := by
  constructor
  · decide
  · rfl

/-- Claim C8 amended: `setup` registers server middleware handlers only
for the config, language, and auth flags; the uploads flag never causes
any handler registration and has no effect on the registered handlers,
though its value is copied unchanged into the runtime configuration. -/
theorem claim_c8_theorem : ∀ (o : ModuleOptions) (u : Bool),
    (setup { o with standardMiddleware :=
        { client := o.standardMiddleware.client
          server := { o.standardMiddleware.server with uploads := u } } }).serverHandlers
      = (setup o).serverHandlers ∧
    ((setup o).serverHandlers.filter (fun h => h.middleware)).map (fun h => h.handler)
      = (["config", "language", "auth"].filter (serverMwFlag o.standardMiddleware.server)).map
          (fun m => "./runtime/middleware/server/" ++ m) := by
  intro o u
  constructor
  · have hmw : serverMwHandlers { o.standardMiddleware.server with uploads := u }
        = serverMwHandlers o.standardMiddleware.server := by
      unfold serverMwHandlers
      refine congrArg (List.map _) ?_
      refine List.filter_congr ?_
      intro m hm
      fin_cases hm <;> rfl
    show serverMwHandlers { o.standardMiddleware.server with uploads := u } ++ collectionsHandlers o.api
        ++ routeLoopHandlers o.api ++ pagesGetHandlers o.api ++ previewsGetHandlers o.api
        ++ translatableStringsHandlers o.api ++ starHandlers o.api ++ seoHandlers o.api
      = allServerHandlers o
    rw [hmw]
    rfl
  · show ((allServerHandlers o).filter _).map _ = _
    unfold allServerHandlers
    simp only [List.filter_append]
    rw [List.filter_eq_self.mpr (fun x hx => (serverMw_shape o.standardMiddleware.server x hx).1),
      filter_mw_nil (fun x hx => (collections_shape o.api x hx).1),
      filter_mw_nil (fun x hx => (routeLoop_shape o.api x hx).1),
      filter_mw_nil (fun x hx => (pagesGet_shape o.api x hx).1),
      filter_mw_nil (fun x hx => (previewsGet_shape o.api x hx).1),
      filter_mw_nil (fun x hx => (translatableStrings_shape o.api x hx).1),
      filter_mw_nil (fun x hx => (star_shape o.api x hx).1),
      filter_mw_nil (fun x hx => (seo_shape o.api x hx).1)]
    simp only [List.append_nil]
    unfold serverMwHandlers
    rw [List.map_map]
    rfl

/-- Claim C9: with an empty api route prepend string, `setup` registers
no handler for the pages, previews, and translatable-strings routes even
when those options are enabled, and the catch-all block registers only
the wildcard handler; with a nonempty one, each of the three enabled
routes gets both its base handler and its extended variant. -/
theorem claim_c9_theorem : ∀ o : ModuleOptions,
    (o.api.prefixStr = "" →
      handlersFor o "./runtime/api/pages.get" = [] ∧
      handlersFor o "./runtime/api/previews.get" = [] ∧
      handlersFor o "./runtime/api/translatable-strings.get" = [] ∧
      (o.api.routes.star = true →
        handlersFor o "./runtime/api/catch-all" =
          [{ route := HRoute.joined ["", "**"], middleware := false,
             handler := "./runtime/api/catch-all" }])) ∧
    (o.api.prefixStr ≠ "" →
      (∀ v, o.api.routes.pagesGet = some v → v ≠ "" →
        handlersFor o "./runtime/api/pages.get" =
          [{ route := HRoute.joined [o.api.prefixStr, v], middleware := false,
             handler := "./runtime/api/pages.get" },
           { route := HRoute.joined [o.api.prefixStr, v, "**"], middleware := false,
             handler := "./runtime/api/pages.get" }]) ∧
      (∀ v, o.api.routes.previewsGet = some v → v ≠ "" →
        handlersFor o "./runtime/api/previews.get" =
          [{ route := HRoute.joined [o.api.prefixStr, v], middleware := false,
             handler := "./runtime/api/previews.get" },
           { route := HRoute.joined [o.api.prefixStr, v, "**"], middleware := false,
             handler := "./runtime/api/previews.get" }]) ∧
      (∀ v, o.api.routes.translatableStringsGet = some v → v ≠ "" →
        handlersFor o "./runtime/api/translatable-strings.get" =
          [{ route := HRoute.joined [o.api.prefixStr, v], middleware := false,
             handler := "./runtime/api/translatable-strings.get" },
           { route := HRoute.joined [o.api.prefixStr, v, ":domain"], middleware := false,
             handler := "./runtime/api/translatable-strings.get" }])) := by
  intro o
  constructor
  · intro hp
    refine ⟨?_, ?_, ?_, ?_⟩
    · rw [handlersFor_pages]
      unfold pagesGetHandlers
      cases truthy o.api.routes.pagesGet <;> simp [hp]
    · rw [handlersFor_previews]
      unfold previewsGetHandlers
      cases truthy o.api.routes.previewsGet <;> simp [hp]
    · rw [handlersFor_translatableStrings]
      unfold translatableStringsHandlers
      cases truthy o.api.routes.translatableStringsGet <;> simp [hp]
    · intro hstar
      rw [handlersFor_catchAll]
      unfold starHandlers
      simp [hstar, hp]
  · intro hp
    refine ⟨?_, ?_, ?_⟩
    · intro v hv hne
      rw [handlersFor_pages]
      unfold pagesGetHandlers
      rw [hv]
      simp [truthy, hne, hp]
    · intro v hv hne
      rw [handlersFor_previews]
      unfold previewsGetHandlers
      rw [hv]
      simp [truthy, hne, hp]
    · intro v hv hne
      rw [handlersFor_translatableStrings]
      unfold translatableStringsHandlers
      rw [hv]
      simp [truthy, hne, hp]

/-- Witness for claim C9: the empty route prepend string suppresses the
pages handlers, and the default options register both pages handlers. -/
theorem claim_c9_witness :
    handlersFor { defaults rng0 with
        api := { (defaults rng0).api with prefixStr := "" } } "./runtime/api/pages.get" = [] ∧
    handlersFor (defaults rng0) "./runtime/api/pages.get" =
      [{ route := HRoute.joined ["api", "pages"], middleware := false,
         handler := "./runtime/api/pages.get" },
       { route := HRoute.joined ["api", "pages", "**"], middleware := false,
         handler := "./runtime/api/pages.get" }] :=
  ⟨((claim_c9_theorem { defaults rng0 with
      api := { (defaults rng0).api with prefixStr := "" } }).1 rfl).1,
   ((claim_c9_theorem (defaults rng0)).2 (by decide)).1 "pages" rfl (by decide)⟩

/-- Claim C10: the default secret key is a 64-character identifier drawn
from the process random source consumed once at module-definition time
(every later read of the defaults observes that same value), and it is
not a constant: distinct process random sources yield distinct keys. -/
theorem claim_c10_theorem :
    (∀ rng : Nat → Fin 64, ((defaults rng).jwt.secretKey).length = 64) ∧
    ∃ r1 r2 : Nat → Fin 64, (defaults r1).jwt.secretKey ≠ (defaults r2).jwt.secretKey := by
  constructor
  · intro rng
    show (nanoid rng 64).length = 64
    have h : (nanoid rng 64).length
        = ((List.range 64).map (fun i => nanoidAlphabet.toList.getD (rng i).val 'A')).length := rfl
    rw [h, List.length_map, List.length_range]
  · exact ⟨rng0, fun _ => 1, by decide⟩

end Pruvious
